import Mathlib

/- Verification development for the agri-google repository.

This file shallowly embeds the data-transformation logic of
`claude-test.py` (the landscape fetch/parse pipeline, latest-period
selection, map coloring, CSV export and the fetch-button session-state
handler) and states and proves the specified properties about it.
Presentation-only aspects (folium widget construction, popup HTML,
legend HTML) are not modelled; the model keeps, for each rendered
overlay, exactly the data the claims talk about (its feature and its
fill color).  Machine-level details that the source delegates to
external libraries (the HTTP client, `json.loads`, the s2sphere
geometry) appear as explicit parameters or are documented at their
use sites. -/

/-- JSON values as handled by the pipeline (`resp.json()` output and
`json.loads` output).  Numbers are modelled as exact rationals. -/
inductive Json where
  | null
  | bool (b : Bool)
  | num (q : Rat)
  | str (s : String)
  | arr (elems : List Json)
  | obj (entries : List (String × Json))

/-- Python truthiness of a JSON value, as tested by `if api_response:`
and `if geojson_data:` in the fetch handler. -/
def jTruthy : Json → Bool
  | .null => false
  | .bool b => b
  | .num q => decide (q ≠ 0)
  | .str s => decide (s ≠ "")
  | .arr l => !l.isEmpty
  | .obj l => !l.isEmpty

/-- The ranked crop/confidence entries of one prediction (the
`crop_prediction` object of the data model).  `none` models an absent key. -/
structure CropPrediction where
  crop_1 : Option String
  conf_1 : Option Rat
  crop_2 : Option String
  conf_2 : Option Rat
  crop_3 : Option String
  conf_3 : Option Rat
deriving DecidableEq

/-- One time-bounded crop prediction of a feature. -/
structure Prediction where
  start_timestamp_sec : Option Int
  end_timestamp_sec : Option Int
  crop_prediction : Option CropPrediction
deriving DecidableEq

/-- The `properties` object of a feature. -/
structure Properties where
  monitoring_prediction : Option (List Prediction)
  area_sq_m : Option Rat
  alu_type : Option String
  class_confidence : Option Rat
deriving DecidableEq

/-- One geo-feature of the parsed collection. -/
structure Feature where
  id : Option String
  properties : Option Properties
deriving DecidableEq

/-- The parsed feature collection as consumed by `create_map` and
`prepare_csv_data` (`geojson_data.get("features", [])`). -/
structure GeoJson where
  features : Option (List Feature)
deriving DecidableEq

/-- `feature.get("properties", {})`. -/
def propsOf (f : Feature) : Properties :=
  f.properties.getD ⟨none, none, none, none⟩

/-- `props.get("monitoring_prediction", [])`. -/
def predsOf (f : Feature) : List Prediction :=
  (propsOf f).monitoring_prediction.getD []

/-- `pred.get("start_timestamp_sec", 0)`. -/
def predStart (p : Prediction) : Int := p.start_timestamp_sec.getD 0

/-- `pred.get("end_timestamp_sec", 0)`. -/
def predEnd (p : Prediction) : Int := p.end_timestamp_sec.getD 0

/-- `pred.get("crop_prediction", {})`. -/
def cropPredOf (p : Prediction) : CropPrediction :=
  p.crop_prediction.getD ⟨none, none, none, none, none, none⟩

/-- Full month names as produced by `strftime("%B")`. -/
def monthNames : List String :=
  ["January", "February", "March", "April", "May", "June", "July",
   "August", "September", "October", "November", "December"]

/-- Civil (proleptic Gregorian) year and month for a count of days since
1970-01-01, by the standard era-based conversion; this models the
calendar part of `datetime.fromtimestamp` with the timezone fixed to UTC. -/
def civilYearMonth (z0 : Nat) : Nat × Nat :=
  let z := z0 + 719468
  let era := z / 146097
  let doe := z % 146097
  let yoe := (doe - doe / 1460 + doe / 36524 - doe / 146096) / 365
  let y := yoe + era * 400
  let doy := doe - (365 * yoe + yoe / 4 - yoe / 100)
  let mp := (5 * doy + 2) / 153
  let m := if mp < 10 then mp + 3 else mp - 9
  (if m ≤ 2 then y + 1 else y, m)

/-- `timestamp_to_month_year` (claude-test.py lines 71-76): "Month Year"
for a strictly positive Unix timestamp and "N/A" otherwise.  The Python
guard `if timestamp and timestamp > 0` reads, on an integer, as
`timestamp ≠ 0 ∧ timestamp > 0`. -/
def timestamp_to_month_year (timestamp : Int) : String :=
  if timestamp ≠ 0 ∧ timestamp > 0 then
    let ym := civilYearMonth (timestamp.toNat / 86400)
    monthNames.getD (ym.2 - 1) "" ++ " " ++ toString ym.1
  else "N/A"

/-- The period dictionary built by `get_latest_time_period`. -/
structure Period where
  period_key : String
  label : String
  start_ts : Int
  end_ts : Int
deriving DecidableEq

/-- The period dictionary for given start/end timestamps
(claude-test.py lines 102-107). -/
def mkPeriod (start_ts end_ts : Int) : Period :=
  { period_key := toString start_ts ++ "_" ++ toString end_ts
    label := timestamp_to_month_year start_ts ++ " - " ++
             timestamp_to_month_year end_ts
    start_ts := start_ts
    end_ts := end_ts }

/-- The period built from a prediction's (defaulted) timestamps. -/
def mkPeriodOf (p : Prediction) : Period := mkPeriod (predStart p) (predEnd p)

/-- Inner loop body of `get_latest_time_period`; the accumulator is the
pair (latest_period, max_timestamp) of the source. -/
def glpStep (acc : Option Period × Int) (pred : Prediction) :
    Option Period × Int :=
  let start_ts := predStart pred
  let end_ts := predEnd pred
  if start_ts > acc.2 ∧ start_ts > 0 ∧ end_ts > 0 then
    (some (mkPeriodOf pred), start_ts)
  else acc

/-- `get_latest_time_period` (claude-test.py lines 89-109): scan every
prediction of every feature, starting from latest_period = None and
max_timestamp = 0. -/
def get_latest_time_period (features : List Feature) : Option Period :=
  (features.foldl (fun acc f => (predsOf f).foldl glpStep acc) (none, 0)).1

/-- A prediction is valid when both defaulted timestamps are strictly
positive (the `start_ts > 0 and end_ts > 0` part of the selector's guard). -/
def validPred (p : Prediction) : Bool :=
  decide (predStart p > 0) && decide (predEnd p > 0)

/-- Every prediction of every feature, in the selector's scan order. -/
def allPreds (features : List Feature) : List Prediction :=
  features.flatMap predsOf

/-- Feature list used by the C1 witness. -/
def demoFeatures : List Feature :=
  [⟨some "f1",
    some ⟨some [⟨some 100, some 200, none⟩, ⟨some 50, some 60, none⟩],
          none, none, none⟩⟩]

/-- `CROP_COLORS` (claude-test.py lines 32-47), in source order. -/
def CROP_COLORS : List (String × String) :=
  [("NO_PREDICTION", "#CCCCCC"),
   ("UNKNOWN_CROP", "#999999"),
   ("BAJRA", "#8B4513"),
   ("CHILLI", "#FF0000"),
   ("CORN", "#FFD700"),
   ("COTTON", "#FFFFFF"),
   ("GRAM", "#DEB887"),
   ("GROUNDNUT", "#CD853F"),
   ("MUSTARD", "#FFFF00"),
   ("RICE", "#90EE90"),
   ("SORGHUM", "#A0522D"),
   ("SOYBEANS", "#228B22"),
   ("SUGARCANE", "#00CED1"),
   ("WHEAT", "#F4A460")]

/-- Python `str.upper()`, character-wise upper-casing (modelled for the
basic latin range, which covers every crop name of the table). -/
def pyUpper (s : String) : String := String.mk (s.data.map Char.toUpper)

/-- Python `str.replace(" ", "_")`: the pattern is a single character,
so the call is a character-wise map. -/
def pyReplaceSpaceUnderscore (s : String) : String :=
  String.mk (s.data.map (fun c => if c = ' ' then '_' else c))

/-- `get_crop_color` (claude-test.py lines 111-114): look the uppercased,
underscore-joined name up in `CROP_COLORS`, defaulting to "#666666". -/
def get_crop_color (crop_name : String) : String :=
  let crop_upper := pyReplaceSpaceUnderscore (pyUpper crop_name)
  (CROP_COLORS.lookup crop_upper).getD "#666666"

/-- Digit part of a Python int literal: digits with single underscores
allowed between digits.  `acc` is the value of the digits already read. -/
def pyDigitsAux : Nat → List Char → Option Nat
  | acc, [] => some acc
  | acc, '_' :: d :: rest =>
      if d.isDigit then pyDigitsAux (acc * 10 + (d.toNat - 48)) rest else none
  | _, ['_'] => none
  | acc, d :: rest =>
      if d.isDigit then pyDigitsAux (acc * 10 + (d.toNat - 48)) rest else none

/-- Python `int(str)` on ASCII input, as invoked at claude-test.py line
189: optional surrounding whitespace, an optional sign, then a nonempty
digit string (single underscores allowed between digits); any other
string raises ValueError, modelled as `none`. -/
def pyIntOfString (s : String) : Option Int :=
  let l0 := s.data.dropWhile Char.isWhitespace
  let l := (l0.reverse.dropWhile Char.isWhitespace).reverse
  let signAndRest : Int × List Char :=
    match l with
    | '+' :: rest => (1, rest)
    | '-' :: rest => (-1, rest)
    | _ => (1, l)
  match signAndRest.2 with
  | [] => none
  | d :: rest =>
      if d.isDigit then
        (pyDigitsAux (d.toNat - 48) rest).map (fun n => signAndRest.1 * n)
      else none

/-- User-visible messages; one constructor per `st.error` / `st.warning`
/ `st.success` call the claims mention, with the dynamic parts as
arguments: `errApiKey` is error "Please enter an API key." (line 297),
`errRequestFailed e` is error "API Request Failed: {e}" (line 68),
`errParseGeojson` is error "Error parsing GeoJSON: {e}" (line 86),
`successFetched n` is success "Data fetched successfully! Found {n}
fields." (line 307), `warnNoFeatures` is warning "No features found in
the data." (line 183), `errInvalidCellId` is error "Invalid S2 Cell ID
format. Please ensure it is a numeric ID." (line 196), and
`errMapCenter` is error "Error calculating map center: {e}" (line 199,
raised only inside the external s2sphere computation). -/
inductive Msg where
  | errApiKey
  | errRequestFailed (e : String)
  | errParseGeojson
  | successFetched (nFields : Nat)
  | warnNoFeatures
  | errInvalidCellId
  | errMapCenter
deriving DecidableEq

/-- Python `max(predictions, key=lambda p: p.get("start_timestamp_sec", 0))`
on a nonempty list: the first element with maximal key. -/
def pyMaxByStart : List Prediction → Option Prediction
  | [] => none
  | p :: ps =>
      some (ps.foldl (fun best q =>
        if predStart q > predStart best then q else best) p)

/-- Per-feature crop-name selection of `create_map` (lines 211-216):
"NO_PREDICTION" for an empty prediction list, otherwise `crop_1` of the
max-start prediction, defaulting to "NO_PREDICTION". -/
def cropNameOf (f : Feature) : String :=
  match pyMaxByStart (predsOf f) with
  | none => "NO_PREDICTION"
  | some latest => (cropPredOf latest).crop_1.getD "NO_PREDICTION"

/-- Data content of the rendered folium map: the parsed center cell
identifier (its latitude/longitude conversion happens inside the
external s2sphere library and is not modelled) plus one overlay per
feature with its fill color.  Popup HTML and the legend are
presentation-only and not modelled. -/
structure MapModel where
  centerCell : Int
  overlays : List (Feature × String)
deriving DecidableEq

/-- `create_map` (claude-test.py lines 178-253): warn and return None on
an empty feature list; report an error and return None when the cell-id
string is not numeric; otherwise build the map with one colored overlay
per feature. -/
def create_map (geojson_data : GeoJson) (cell_id_input : String) :
    Option MapModel × List Msg :=
  let features := geojson_data.features.getD []
  if features.isEmpty then (none, [.warnNoFeatures])
  else
    match pyIntOfString cell_id_input with
    | none => (none, [.errInvalidCellId])
    | some n =>
        (some { centerCell := n,
                overlays :=
                  features.map (fun f => (f, get_crop_color (cropNameOf f))) },
         [])

/-- Feature collection used by the C6 witness. -/
def demoGeo : GeoJson := ⟨some demoFeatures⟩

/-- A feature whose only prediction has nonpositive timestamps (hence
zero valid predictions) but carries the crop name "CORN". -/
def invalidPredFeature : Feature :=
  ⟨some "f3",
   some ⟨some [⟨some 0, some 0,
                some ⟨some "CORN", none, none, none, none, none⟩⟩],
         none, none, none⟩⟩

/-- Collection containing only `invalidPredFeature`. -/
def invalidPredGeo : GeoJson := ⟨some [invalidPredFeature]⟩

/-- A feature with an empty prediction list. -/
def emptyPredFeature : Feature :=
  ⟨some "fe", some ⟨some [], none, none, none⟩⟩

/-- Collection containing only `emptyPredFeature`. -/
def emptyPredGeo : GeoJson := ⟨some [emptyPredFeature]⟩

/-- One row of the CSV export, with the columns of claude-test.py lines
266-279 (string cells as strings, numeric cells as exact rationals). -/
structure CsvRow where
  Field_ID : String
  Area_sqm : Rat
  ALU_Type : String
  Class_Confidence : Rat
  Season_Start : String
  Season_End : String
  Primary_Crop : String
  Primary_Confidence : Rat
  Secondary_Crop : String
  Secondary_Confidence : Rat
  Tertiary_Crop : String
  Tertiary_Confidence : Rat
deriving DecidableEq

/-- The row built for one (feature, prediction) pair (lines 264-280),
with the source's `.get` defaults. -/
def mkCsvRow (f : Feature) (pred : Prediction) : CsvRow :=
  let props := propsOf f
  let crop_pred := cropPredOf pred
  { Field_ID := f.id.getD ""
    Area_sqm := props.area_sq_m.getD 0
    ALU_Type := props.alu_type.getD ""
    Class_Confidence := props.class_confidence.getD 0
    Season_Start := timestamp_to_month_year (predStart pred)
    Season_End := timestamp_to_month_year (predEnd pred)
    Primary_Crop := crop_pred.crop_1.getD ""
    Primary_Confidence := crop_pred.conf_1.getD 0
    Secondary_Crop := crop_pred.crop_2.getD ""
    Secondary_Confidence := crop_pred.conf_2.getD 0
    Tertiary_Crop := crop_pred.crop_3.getD ""
    Tertiary_Confidence := crop_pred.conf_3.getD 0 }

/-- `prepare_csv_data` (claude-test.py lines 255-282): one row appended
per (feature, prediction) pair, in scan order. -/
def prepare_csv_data (geojson_data : GeoJson) : List CsvRow :=
  (geojson_data.features.getD []).flatMap
    (fun f => (predsOf f).map (mkCsvRow f))

/-- Explicit-defaults completion of a crop-prediction object: every
missing field is replaced by the default `prepare_csv_data` uses. -/
def csvCompleteCrop (c : CropPrediction) : CropPrediction :=
  ⟨some (c.crop_1.getD ""), some (c.conf_1.getD 0),
   some (c.crop_2.getD ""), some (c.conf_2.getD 0),
   some (c.crop_3.getD ""), some (c.conf_3.getD 0)⟩

/-- Explicit-defaults completion of a prediction. -/
def csvCompletePrediction (p : Prediction) : Prediction :=
  ⟨some (predStart p), some (predEnd p),
   some (csvCompleteCrop (cropPredOf p))⟩

/-- Explicit-defaults completion of a properties object. -/
def csvCompleteProperties (pr : Properties) : Properties :=
  ⟨some ((pr.monitoring_prediction.getD []).map csvCompletePrediction),
   some (pr.area_sq_m.getD 0), some (pr.alu_type.getD ""),
   some (pr.class_confidence.getD 0)⟩

/-- Explicit-defaults completion of a feature. -/
def csvCompleteFeature (f : Feature) : Feature :=
  ⟨some (f.id.getD ""), some (csvCompleteProperties (propsOf f))⟩

/-- Explicit-defaults completion of a collection. -/
def csvCompleteGeo (g : GeoJson) : GeoJson :=
  ⟨some ((g.features.getD []).map csvCompleteFeature)⟩

/-- `parse_geojson_data` (claude-test.py lines 78-87), parameterized by
the external `json.loads` (`loads s = none` models `json.loads` raising
on `s`).  Any shape mismatch while navigating the envelope raises in
Python and is caught by the surrounding `except`, hence `none` here; an
absent `geojson` key defaults to the serialized empty object. -/
def parse_geojson_data (loads : String → Option Json) (api_response : Json) :
    Option Json :=
  match api_response with
  | .obj entries =>
      match (entries.lookup "monitoredLandscape").getD (.obj []) with
      | .obj mlEntries =>
          match (mlEntries.lookup "geojson").getD (.str "\x7b\x7d") with
          | .str geojson_str => loads geojson_str
          | _ => none
      | _ => none
  | _ => none

/-- Reads a JSON string value. -/
def jStr? : Json → Option String
  | .str s => some s
  | _ => none

/-- Reads an integer JSON number. -/
def jInt? : Json → Option Int
  | .num q => if q.den = 1 then some q.num else none
  | _ => none

/-- Reads a JSON number. -/
def jRat? : Json → Option Rat
  | .num q => some q
  | _ => none

/-- Interpretation of a JSON value as a crop-prediction object of the
data model (well-typed fields kept, anything else treated as absent). -/
def cropPredictionOfJson : Json → CropPrediction
  | .obj e =>
      ⟨(e.lookup "crop_1").bind jStr?, (e.lookup "conf_1").bind jRat?,
       (e.lookup "crop_2").bind jStr?, (e.lookup "conf_2").bind jRat?,
       (e.lookup "crop_3").bind jStr?, (e.lookup "conf_3").bind jRat?⟩
  | _ => ⟨none, none, none, none, none, none⟩

/-- Interpretation of a JSON value as a prediction of the data model. -/
def predictionOfJson : Json → Prediction
  | .obj e =>
      ⟨(e.lookup "start_timestamp_sec").bind jInt?,
       (e.lookup "end_timestamp_sec").bind jInt?,
       (e.lookup "crop_prediction").map cropPredictionOfJson⟩
  | _ => ⟨none, none, none⟩

/-- Interpretation of a JSON value as a properties object. -/
def propertiesOfJson : Json → Properties
  | .obj e =>
      ⟨(e.lookup "monitoring_prediction").bind (fun j =>
          match j with
          | .arr l => some (l.map predictionOfJson)
          | _ => none),
       (e.lookup "area_sq_m").bind jRat?,
       (e.lookup "alu_type").bind jStr?,
       (e.lookup "class_confidence").bind jRat?⟩
  | _ => ⟨none, none, none, none⟩

/-- Interpretation of a JSON value as a feature. -/
def featureOfJson : Json → Feature
  | .obj e =>
      ⟨(e.lookup "id").bind jStr?,
       (e.lookup "properties").map propertiesOfJson⟩
  | _ => ⟨none, none⟩

/-- `geojson_data.get("features", [])` followed by the data-model
interpretation of each element. -/
def featuresOfJson : Json → List Feature
  | .obj e =>
      match (e.lookup "features").getD (.arr []) with
      | .arr l => l.map featureOfJson
      | _ => []
  | _ => []

/-- A JSON prediction the Python selector scans without raising: an
object whose timestamp keys, when present, hold integer numbers. -/
def wfPredictionJson : Json → Bool
  | .obj e =>
      (match e.lookup "start_timestamp_sec" with
       | none => true
       | some j => (jInt? j).isSome) &&
      (match e.lookup "end_timestamp_sec" with
       | none => true
       | some j => (jInt? j).isSome)
  | _ => false

/-- A JSON feature the Python selector scans without raising. -/
def wfFeatureJson : Json → Bool
  | .obj e =>
      match e.lookup "properties" with
      | none => true
      | some (.obj pe) =>
          (match pe.lookup "monitoring_prediction" with
           | none => true
           | some (.arr l) => l.all wfPredictionJson
           | some _ => false)
      | some _ => false
  | _ => false

/-- A parsed payload on which the success path of the handler (feature
extraction and period selection) runs without raising in Python; on such
payloads the data-model interpretation is exact. -/
def wfGeojson : Json → Bool
  | .obj e =>
      (match e.lookup "features" with
       | none => true
       | some (.arr l) => l.all wfFeatureJson
       | some _ => false)
  | _ => false

/-- `api_key` (claude-test.py lines 20-23): the environment variable
`API_KEY_AGRI`, defaulting to the empty string when absent. -/
def api_key (env : Option String) : String := env.getD ""

/-- The three session-state slots (claude-test.py lines 287-292). -/
structure SessionState where
  raw_response : Option Json
  geojson_data : Option Json
  latest_period : Option Period

/-- Result of one run of the fetch-button handler: the new session
state, the messages shown, and whether `fetch_agri_data` performed its
network call. -/
structure RunOutput where
  state : SessionState
  msgs : List Msg
  networkCalled : Bool

/-- The fetch-button handler (claude-test.py lines 295-307).  `loads` is
the external `json.loads`; `fetchOutcome` is the outcome of the network
call inside `fetch_agri_data` (`requests.post` + `raise_for_status` +
`resp.json()`): `Except.error e` is a raised RequestException with
message `e` (caught at line 67, reported, and turned into None),
`Except.ok r` is the decoded body. -/
def runFetchHandler (loads : String → Option Json) (apiKey : String)
    (fetchOutcome : Except String Json) (s : SessionState) : RunOutput :=
  if apiKey = "" then ⟨s, [.errApiKey], false⟩
  else
    match fetchOutcome with
    | .error e => ⟨s, [.errRequestFailed e], true⟩
    | .ok r =>
        if jTruthy r then
          let s1 : SessionState := { s with raw_response := some r }
          match parse_geojson_data loads r with
          | none => ⟨s1, [.errParseGeojson], true⟩
          | some g =>
              if jTruthy g then
                let features := featuresOfJson g
                ⟨{ s1 with geojson_data := some g,
                           latest_period := get_latest_time_period features },
                 [.successFetched features.length], true⟩
              else ⟨s1, [], true⟩
        else ⟨s, [], true⟩

/-- Truthiness of a session slot holding an optional JSON value (Python
None is falsy). -/
def slotTruthy : Option Json → Bool
  | none => false
  | some j => jTruthy j

/-- The display gate of claude-test.py line 310:
`st.session_state.geojson_data and st.session_state.latest_period` (a
stored period is a nonempty dict, hence truthy exactly when present). -/
def displayGate (s : SessionState) : Bool :=
  slotTruthy s.geojson_data && s.latest_period.isSome

/-- The two branches of the main display area: the data view (map, CSV
download, summary statistics and raw-response viewer, lines 310-369) or
the initial prompt (lines 370-371). -/
inductive MainBranch where
  | dataView
  | prompt
deriving DecidableEq

/-- Main display area selection. -/
def mainBranch (s : SessionState) : MainBranch :=
  if displayGate s then .dataView else .prompt

/-- Concrete model of `json.loads` for the C2 counterexample: it fails
on the malformed payload it is given (the real `json.loads` raises
ValueError on "not json"). -/
def loadsMalformed : String → Option Json := fun _ => none

/-- A previously displayed session state. -/
def prevState : SessionState :=
  ⟨some (Json.str "old"), some (Json.obj [("features", Json.arr [])]),
   some (mkPeriod 1 2)⟩

/-- A truthy decoded HTTP response whose embedded payload is the
malformed string "not json". -/
def malformedResp : Json :=
  Json.obj [("monitoredLandscape",
             Json.obj [("geojson", Json.str "not json")])]

/-- The embedded collection used by the C10 witness: one feature whose
single prediction has a positive start but a zero end timestamp, so no
prediction is valid. -/
def noValidPredGeoJson : Json :=
  Json.obj [("features", Json.arr
    [Json.obj [("properties", Json.obj [("monitoring_prediction", Json.arr
      [Json.obj [("start_timestamp_sec", Json.num 5),
                 ("end_timestamp_sec", Json.num 0)]])])]])]

/-- Concrete model of `json.loads` for the C10 witness: decodes the
payload string "G" to `noValidPredGeoJson`. -/
def loadsDemo : String → Option Json :=
  fun s => if s = "G" then some noValidPredGeoJson else none

/-- Response envelope carrying the payload string "G". -/
def demoResp : Json :=
  Json.obj [("monitoredLandscape", Json.obj [("geojson", Json.str "G")])]

theorem validPred_iff (p : Prediction) :
    validPred p = true ↔ 0 < predStart p ∧ 0 < predEnd p := by
  simp [validPred]

theorem validPred_eq_false_iff (p : Prediction) :
    validPred p = false ↔ ¬(0 < predStart p ∧ 0 < predEnd p) := by
  rw [← validPred_iff]
  simp

theorem foldl_predsOf_flatMap (features : List Feature)
    (acc : Option Period × Int) :
    features.foldl (fun acc f => (predsOf f).foldl glpStep acc) acc =
    (features.flatMap predsOf).foldl glpStep acc := by
  induction features generalizing acc with
  | nil => rfl
  | cons f fs ih => simp [List.flatMap_cons, List.foldl_append, ih]

theorem glp_foldl_spec (l : List Prediction) :
    ∀ (pre : List Prediction) (a : Option Period) (m : Int),
    (a = none ↔ ∀ p ∈ pre, validPred p = false) →
    (a = none → m = 0) →
    0 ≤ m →
    (∀ per, a = some per → ∃ p ∈ pre, validPred p = true ∧
      per = mkPeriodOf p ∧ predStart p = m) →
    (∀ p ∈ pre, validPred p = true → predStart p ≤ m) →
    ((l.foldl glpStep (a, m)).1 = none ↔
      ∀ p ∈ pre ++ l, validPred p = false) ∧
    ((l.foldl glpStep (a, m)).1 = none → (l.foldl glpStep (a, m)).2 = 0) ∧
    0 ≤ (l.foldl glpStep (a, m)).2 ∧
    (∀ per, (l.foldl glpStep (a, m)).1 = some per →
      ∃ p ∈ pre ++ l, validPred p = true ∧ per = mkPeriodOf p ∧
        predStart p = (l.foldl glpStep (a, m)).2) ∧
    (∀ p ∈ pre ++ l, validPred p = true →
      predStart p ≤ (l.foldl glpStep (a, m)).2) := by
  induction l with
  | nil =>
    intro pre a m hnone hm hm0 hsome hmax
    simpa using ⟨hnone, hm, hm0, hsome, hmax⟩
  | cons q l ih =>
    intro pre a m hnone hm hm0 hsome hmax
    have hstep : List.foldl glpStep (a, m) (q :: l) =
        List.foldl glpStep (glpStep (a, m) q) l := rfl
    by_cases hc : predStart q > m ∧ predStart q > 0 ∧ predEnd q > 0
    · have hq : glpStep (a, m) q = (some (mkPeriodOf q), predStart q) := by
        simp [glpStep, hc]
      have hvq : validPred q = true := (validPred_iff q).mpr ⟨hc.2.1, hc.2.2⟩
      have := ih (pre ++ [q]) (some (mkPeriodOf q)) (predStart q)
        (by
          constructor
          · intro h; exact absurd h (by simp)
          · intro h
            exact absurd hvq (by simpa using (h q (by simp))))
        (by intro h; exact absurd h (by simp))
        (le_of_lt hc.2.1)
        (by
          intro per hper
          refine ⟨q, by simp, hvq, ?_, rfl⟩
          exact (Option.some_injective _ hper.symm))
        (by
          intro p hp hvp
          rcases List.mem_append.mp hp with h | h
          · exact le_of_lt (lt_of_le_of_lt (hmax p h hvp) hc.1)
          · simp at h; subst h; exact le_refl _)
      rw [hstep, hq]
      simpa [List.append_assoc] using this
    · have hq : glpStep (a, m) q = (a, m) := by
        simp only [glpStep]
        rw [if_neg hc]
      have hvqmax : validPred q = true → predStart q ≤ m := by
        intro hv
        rcases (validPred_iff q).mp hv with ⟨h1, h2⟩
        by_contra hgt
        exact hc ⟨lt_of_not_ge hgt, h1, h2⟩
      have := ih (pre ++ [q]) a m
        (by
          constructor
          · intro h p hp
            rcases List.mem_append.mp hp with hmem | hmem
            · exact hnone.mp h p hmem
            · simp at hmem; rw [hmem]
              rcases Bool.eq_false_or_eq_true (validPred q) with ht | hf
              · exfalso
                rcases (validPred_iff q).mp ht with ⟨h1, h2⟩
                have hm0' := hm h
                exact hc ⟨by rw [hm0']; exact h1, h1, h2⟩
              · exact hf
          · intro h
            exact hnone.mpr (fun p hp => h p (List.mem_append.mpr (Or.inl hp))))
        hm hm0
        (by
          intro per hper
          rcases hsome per hper with ⟨p, hp, h1, h2, h3⟩
          exact ⟨p, List.mem_append.mpr (Or.inl hp), h1, h2, h3⟩)
        (by
          intro p hp hv
          rcases List.mem_append.mp hp with hmem | hmem
          · exact hmax p hmem hv
          · simp at hmem; rw [hmem] at hv ⊢; exact hvqmax hv)
      rw [hstep, hq]
      simpa [List.append_assoc] using this

/-- C1: the time-period selector treats a prediction as valid only when
both its (defaulted) start and end timestamps are strictly positive,
returns the period built (month/year label plus start/end timestamps)
from a valid prediction whose start timestamp is maximal among all valid
predictions of all features, and returns null when no feature has any
valid prediction. -/
theorem claim1_latest_period_correct (features : List Feature) :
    (get_latest_time_period features = none ↔
      ∀ p ∈ allPreds features, validPred p = false) ∧
    (∀ per, get_latest_time_period features = some per →
      ∃ p ∈ allPreds features, validPred p = true ∧ per = mkPeriodOf p ∧
        ∀ q ∈ allPreds features, validPred q = true →
          predStart q ≤ predStart p) := by
  have h := glp_foldl_spec (allPreds features) [] none 0
    (by simp) (by simp) le_rfl (by simp) (by simp)
  rcases h with ⟨h1, _, _, h4, h5⟩
  have hfold : get_latest_time_period features =
      ((allPreds features).foldl glpStep (none, 0)).1 := by
    unfold get_latest_time_period
    rw [foldl_predsOf_flatMap]
    rfl
  constructor
  · rw [hfold]
    simpa using h1
  · intro per hper
    rw [hfold] at hper
    rcases h4 per hper with ⟨p, hp, hv, hmk, hstart⟩
    simp only [List.nil_append] at hp h5
    exact ⟨p, hp, hv, hmk, fun q hq hvq => by
      rw [hstart]; exact h5 q hq hvq⟩

/-- Witness for C1 at a concrete feature list. -/
theorem claim1_witness :
    ∃ p ∈ allPreds demoFeatures, validPred p = true ∧
      mkPeriod 100 200 = mkPeriodOf p ∧
      ∀ q ∈ allPreds demoFeatures, validPred q = true →
        predStart q ≤ predStart p :=
  (claim1_latest_period_correct demoFeatures).2 (mkPeriod 100 200) rfl

theorem char_toNat_ofNat_of_valid (n : Nat) (h : n.isValidChar) :
    (Char.ofNat n).toNat = n := by
  unfold Char.ofNat
  rw [dif_pos h]
  rfl

theorem char_toNat_toUpper (c : Char) :
    (Char.toUpper c).toNat =
      if 97 ≤ c.toNat ∧ c.toNat ≤ 122 then c.toNat - 32 else c.toNat := by
  simp only [Char.toUpper]
  by_cases h : 97 ≤ c.toNat ∧ c.toNat ≤ 122
  · rw [if_pos h, if_pos h]
    exact char_toNat_ofNat_of_valid _ (Or.inl (by omega))
  · rw [if_neg h, if_neg h]

theorem char_toUpper_eq_self (c : Char)
    (h : ¬(97 ≤ c.toNat ∧ c.toNat ≤ 122)) : Char.toUpper c = c := by
  simp only [Char.toUpper]
  rw [if_neg h]

theorem char_toUpper_not_lower (c : Char) :
    ¬(97 ≤ (Char.toUpper c).toNat ∧ (Char.toUpper c).toNat ≤ 122) := by
  have h1 := char_toNat_toUpper c
  split_ifs at h1 <;> omega

theorem char_toUpper_idem (c : Char) :
    Char.toUpper (Char.toUpper c) = Char.toUpper c :=
  char_toUpper_eq_self _ (char_toUpper_not_lower c)

theorem char_transform_idem (c : Char) :
    (if Char.toUpper (if Char.toUpper c = ' ' then '_' else Char.toUpper c) = ' '
     then '_'
     else Char.toUpper
       (if Char.toUpper c = ' ' then '_' else Char.toUpper c)) =
    (if Char.toUpper c = ' ' then '_' else Char.toUpper c) := by
  by_cases hsp : Char.toUpper c = ' '
  · have hu : Char.toUpper '_' = '_' := by decide
    simp [hsp, hu]
  · rw [if_neg hsp, char_toUpper_idem, if_neg hsp]

theorem transform_idem (s : String) :
    pyReplaceSpaceUnderscore (pyUpper (pyReplaceSpaceUnderscore (pyUpper s))) =
    pyReplaceSpaceUnderscore (pyUpper s) := by
  unfold pyReplaceSpaceUnderscore pyUpper
  congr 1
  show (((s.data.map Char.toUpper).map
      (fun c => if c = ' ' then '_' else c)).map Char.toUpper).map
      (fun c => if c = ' ' then '_' else c) =
    (s.data.map Char.toUpper).map (fun c => if c = ' ' then '_' else c)
  simp only [List.map_map]
  apply List.map_congr_left
  intro c _
  exact char_transform_idem c

/-- C7: crop-to-color lookup is case- and space-insensitive: every name
resolves to the same color as its uppercased, underscore-joined form; in
particular "corn", "Corn" and "CORN" resolve to the color of "CORN"
("#FFD700"), and a name whose transformed form is not a key of the fixed
table yields the fallback color "#666666". -/
theorem claim7_crop_color_insensitive :
    (∀ s : String, get_crop_color s =
        get_crop_color (pyReplaceSpaceUnderscore (pyUpper s))) ∧
    (get_crop_color "corn" = get_crop_color "CORN" ∧
     get_crop_color "Corn" = get_crop_color "CORN" ∧
     get_crop_color "CORN" = "#FFD700") ∧
    (∀ s : String,
      CROP_COLORS.lookup (pyReplaceSpaceUnderscore (pyUpper s)) = none →
      get_crop_color s = "#666666") := by
  refine ⟨?_, ⟨rfl, rfl, rfl⟩, ?_⟩
  · intro s
    unfold get_crop_color
    rw [transform_idem]
  · intro s h
    simp only [get_crop_color]
    rw [h]
    rfl

/-- Witness for C7: "durian" is not in the table and gets the fallback. -/
theorem claim7_witness :
    CROP_COLORS.lookup (pyReplaceSpaceUnderscore (pyUpper "durian")) = none ∧
    get_crop_color "durian" = "#666666" :=
  ⟨rfl, claim7_crop_color_insensitive.2.2 "durian" rfl⟩

example : pyIntOfString "3486736072451293184" = some 3486736072451293184 := rfl

example : pyIntOfString "abc" = none := rfl

example : pyIntOfString " -4_2 " = some (-42) := rfl

example : pyIntOfString "" = none := rfl

/-- C6: for every feature collection and non-numeric cell-identifier
string, `create_map` returns no map and never raises; whenever the
feature list is nonempty (so the identifier conversion is reached), the
invalid-format error is reported. -/
theorem claim6_invalid_cell_id (g : GeoJson) (s : String)
    (h : pyIntOfString s = none) :
    (create_map g s).1 = none ∧
    ((g.features.getD []).isEmpty = false →
      (create_map g s).2 = [Msg.errInvalidCellId]) := by
  simp only [create_map]
  by_cases he : (g.features.getD []).isEmpty = true
  · rw [if_pos he]
    exact ⟨rfl, fun hc => by rw [hc] at he; cases he⟩
  · rw [if_neg he, h]
    exact ⟨rfl, fun _ => rfl⟩

/-- Witness for C6 at the non-numeric string "abc". -/
theorem claim6_witness :
    (create_map demoGeo "abc").1 = none ∧
    (create_map demoGeo "abc").2 = [Msg.errInvalidCellId] :=
  ⟨(claim6_invalid_cell_id demoGeo "abc" rfl).1,
   (claim6_invalid_cell_id demoGeo "abc" rfl).2 rfl⟩

/-- Counterexample to C3: a feature with zero valid predictions whose
overlay is colored "#FFD700" (the CORN color), not the "no prediction"
fallback "#CCCCCC": the renderer never checks timestamp validity when
choosing a color. -/
theorem claim3_counterexample :
    (predsOf invalidPredFeature).all (fun p => !validPred p) = true ∧
    ((create_map invalidPredGeo "3486736072451293184").1.map
      (fun m => m.overlays.map Prod.snd)) = some ["#FFD700"] ∧
    "#FFD700" ≠ "#CCCCCC" := by
  refine ⟨rfl, rfl, ?_⟩
  decide

/-- C3 amended: the fallback "no prediction" color "#CCCCCC" is assigned
to every feature whose prediction list is empty (timestamp validity is
not consulted: a feature whose predictions are all invalid is colored by
its max-start prediction's primary crop). -/
theorem claim3_amended_empty_preds_fallback (g : GeoJson) (cid : String)
    (mp : MapModel) (hmp : (create_map g cid).1 = some mp) :
    ∀ f ∈ g.features.getD [], predsOf f = [] →
      (f, "#CCCCCC") ∈ mp.overlays := by
  intro f hf hpred
  simp only [create_map] at hmp
  by_cases he : (g.features.getD []).isEmpty = true
  · rw [if_pos he] at hmp; cases hmp
  · rw [if_neg he] at hmp
    cases hpi : pyIntOfString cid with
    | none => rw [hpi] at hmp; cases hmp
    | some n =>
        rw [hpi] at hmp
        have hm := (Option.some_injective _ hmp).symm
        rw [hm]
        have hcolor : get_crop_color (cropNameOf f) = "#CCCCCC" := by
          simp only [cropNameOf, hpred]
          rfl
        exact List.mem_map.mpr ⟨f, hf, by rw [hcolor]⟩

/-- Witness for the amended C3 at a concrete feature without predictions. -/
theorem claim3_witness :
    (emptyPredFeature, "#CCCCCC") ∈
      (MapModel.mk 0 [(emptyPredFeature, "#CCCCCC")]).overlays :=
  claim3_amended_empty_preds_fallback emptyPredGeo "0"
    (MapModel.mk 0 [(emptyPredFeature, "#CCCCCC")]) rfl
    emptyPredFeature (by simp [emptyPredGeo]) rfl

/-- C4: the CSV produced by `prepare_csv_data` has exactly one row per
(feature, prediction) pair: its row count is the sum, over the features
of the collection, of their prediction counts. -/
theorem claim4_csv_row_count (g : GeoJson) :
    (prepare_csv_data g).length =
      ((g.features.getD []).map (fun f => (predsOf f).length)).sum := by
  unfold prepare_csv_data
  induction g.features.getD [] with
  | nil => rfl
  | cons f fs ih =>
      simp [List.flatMap_cons, List.length_append, ih]

theorem mkCsvRow_complete (f : Feature) (p : Prediction) :
    mkCsvRow (csvCompleteFeature f) (csvCompletePrediction p) =
    mkCsvRow f p := rfl

theorem predsOf_complete (f : Feature) :
    predsOf (csvCompleteFeature f) = (predsOf f).map csvCompletePrediction :=
  rfl

theorem feature_rows_complete (f : Feature) :
    (predsOf (csvCompleteFeature f)).map (mkCsvRow (csvCompleteFeature f)) =
    (predsOf f).map (mkCsvRow f) := by
  rw [predsOf_complete, List.map_map]
  apply List.map_congr_left
  intro p _
  exact mkCsvRow_complete f p

/-- C9: in the CSV export, every input field missing from a (feature,
prediction) pair defaults to the empty string (string fields) or zero
(numeric fields): replacing every missing field by exactly that default
leaves the produced rows unchanged, and the all-fields-missing pair
yields the fully defaulted row (its season labels being the formatting
of the defaulted 0 timestamp, "N/A").  No transformation other than this
flattening and formatting is applied. -/
theorem claim9_csv_missing_defaults (g : GeoJson) :
    prepare_csv_data (csvCompleteGeo g) = prepare_csv_data g ∧
    prepare_csv_data
        ⟨some [⟨none, some ⟨some [⟨none, none, none⟩], none, none, none⟩⟩]⟩ =
      [⟨"", 0, "", 0, "N/A", "N/A", "", 0, "", 0, "", 0⟩] := by
  constructor
  · unfold prepare_csv_data
    have h1 : (csvCompleteGeo g).features.getD [] =
        (g.features.getD []).map csvCompleteFeature := rfl
    rw [h1, List.flatMap_map]
    congr 1
    funext f
    exact feature_rows_complete f
  · rfl

/-- C5: with the credential environment variable absent or empty,
clicking Fetch performs no network call, shows the configuration error,
and leaves the session state unchanged. -/
theorem claim5_missing_key_blocks_fetch (env : Option String)
    (loads : String → Option Json) (fetchOutcome : Except String Json)
    (s : SessionState) (h : env = none ∨ env = some "") :
    runFetchHandler loads (api_key env) fetchOutcome s =
      ⟨s, [Msg.errApiKey], false⟩ := by
  have hk : api_key env = "" := by
    rcases h with h | h <;> simp [api_key, h]
  simp [runFetchHandler, hk]

/-- Witness for C5 with the variable absent. -/
theorem claim5_witness :
    runFetchHandler (fun _ => none) (api_key none) (Except.ok Json.null)
      ⟨none, none, none⟩ = ⟨⟨none, none, none⟩, [Msg.errApiKey], false⟩ :=
  claim5_missing_key_blocks_fetch none (fun _ => none) (Except.ok Json.null)
    ⟨none, none, none⟩ (Or.inl rfl)

/-- C2 amended: on a transport error the whole session state is
unchanged and the transport error (with its message) is shown; on a data
error the parsed feature collection and the selected period are
unchanged, but the stored raw response is overwritten whenever the
decoded response body is truthy, and a message is shown only for a
malformed payload (`json.loads` failure) — a present-but-falsy decoded
payload, and a falsy response body, are silent. -/
theorem claim2_amended_failed_fetch_state (loads : String → Option Json)
    (k : String) (s : SessionState) (hk : k ≠ "") :
    (∀ e, runFetchHandler loads k (Except.error e) s =
        ⟨s, [Msg.errRequestFailed e], true⟩) ∧
    (∀ r, jTruthy r = false →
        runFetchHandler loads k (Except.ok r) s = ⟨s, [], true⟩) ∧
    (∀ r, jTruthy r = true → parse_geojson_data loads r = none →
        runFetchHandler loads k (Except.ok r) s =
          ⟨{ s with raw_response := some r }, [Msg.errParseGeojson], true⟩) ∧
    (∀ r g, jTruthy r = true → parse_geojson_data loads r = some g →
        jTruthy g = false →
        runFetchHandler loads k (Except.ok r) s =
          ⟨{ s with raw_response := some r }, [], true⟩) := by
  refine ⟨fun e => ?_, fun r hr => ?_, fun r hr hp => ?_,
          fun r g hr hp hg => ?_⟩
  · simp [runFetchHandler, hk]
  · simp [runFetchHandler, hk, hr]
  · simp [runFetchHandler, hk, hr, hp]
  · simp [runFetchHandler, hk, hr, hp, hg]

/-- Counterexample to C2: on a data error (malformed embedded payload)
the previously displayed session state is NOT left unchanged — the
stored raw response is overwritten with the new response. -/
theorem claim2_counterexample :
    (runFetchHandler loadsMalformed "key" (Except.ok malformedResp)
        prevState).state.raw_response ≠ prevState.raw_response := by
  have h0 : (runFetchHandler loadsMalformed "key" (Except.ok malformedResp)
      prevState).state.raw_response = some malformedResp := rfl
  rw [h0]
  intro h
  have h2 : malformedResp = Json.str "old" := Option.some_injective _ h
  unfold malformedResp at h2
  exact Json.noConfusion h2

/-- Witness for the amended C2: a concrete transport error (HTTP 403)
leaves the concrete previous state untouched and shows the transport
error naming the status. -/
theorem claim2_witness :
    runFetchHandler loadsMalformed "key"
        (Except.error "403 Client Error: Forbidden for url") prevState =
      ⟨prevState,
       [Msg.errRequestFailed "403 Client Error: Forbidden for url"],
       true⟩ :=
  (claim2_amended_failed_fetch_state loadsMalformed "key" prevState
      (by decide)).1 "403 Client Error: Forbidden for url"

/-- C10: the data view (map, CSV download, summary statistics and
raw-response viewer) is selected exactly when a truthy parsed collection
and a present selected period are both in session state; consequently,
after a fetch that succeeds and decodes to a truthy, well-formed
collection whose features contain no valid prediction (so the selector
returns null), the handler stores the collection but the display shows
only the initial prompt. -/
theorem claim10_display_gate (loads : String → Option Json) (k : String)
    (r g : Json) (s : SessionState) (hk : k ≠ "")
    (hr : jTruthy r = true) (hp : parse_geojson_data loads r = some g)
    (hg : jTruthy g = true) (_hwf : wfGeojson g = true)
    (hnull : get_latest_time_period (featuresOfJson g) = none) :
    (∀ s' : SessionState, mainBranch s' = MainBranch.dataView ↔
      slotTruthy s'.geojson_data = true ∧ s'.latest_period.isSome = true) ∧
    (runFetchHandler loads k (Except.ok r) s).state.geojson_data = some g ∧
    mainBranch (runFetchHandler loads k (Except.ok r) s).state =
      MainBranch.prompt := by
  have hrun : runFetchHandler loads k (Except.ok r) s =
      RunOutput.mk
        (SessionState.mk (some r) (some g)
          (get_latest_time_period (featuresOfJson g)))
        [Msg.successFetched (featuresOfJson g).length] true := by
    simp [runFetchHandler, hk, hr, hp, hg]
  refine ⟨fun s' => ?_, ?_, ?_⟩
  · unfold mainBranch displayGate
    by_cases h1 : slotTruthy s'.geojson_data = true <;>
      by_cases h2 : s'.latest_period.isSome = true <;>
        simp [h1, h2]
  · rw [hrun]
  · rw [hrun]
    simp [mainBranch, displayGate, hnull]

/-- Witness for C10: the concrete no-valid-prediction fetch ends on the
initial prompt with the collection stored. -/
theorem claim10_witness :
    (runFetchHandler loadsDemo "key" (Except.ok demoResp)
        ⟨none, none, none⟩).state.geojson_data = some noValidPredGeoJson ∧
    mainBranch (runFetchHandler loadsDemo "key" (Except.ok demoResp)
        ⟨none, none, none⟩).state = MainBranch.prompt :=
  ⟨(claim10_display_gate loadsDemo "key" demoResp noValidPredGeoJson
      ⟨none, none, none⟩ (by decide) rfl rfl rfl rfl rfl).2.1,
   (claim10_display_gate loadsDemo "key" demoResp noValidPredGeoJson
      ⟨none, none, none⟩ (by decide) rfl rfl rfl rfl rfl).2.2⟩
